import Mathlib

/-!
Verification development for the auth-popup library (TypeScript sources under
src/).  The definitions below are a shallow embedding of the code:

* utils/security.ts : validateOrigin, generateRandomString, base64URLEncode,
  generatePKCE.  Platform primitives (the CSPRNG behind crypto.getRandomValues,
  the SHA-256 digest behind crypto.subtle.digest, and the WHATWG URL parser
  behind new URL) are taken as explicit functional parameters; everything the
  repository itself implements is translated directly.
* callback-handler.ts : CallbackHandler.sanitizeParam, parameter extraction,
  CallbackHandler.process classification, CallbackHandler.init and
  handleCallback.  URLSearchParams.get is modelled as first-match lookup in an
  association list of decoded key/value pairs.
* auth-popup.ts : the validation phase of AuthPopup.authorize (as an explicit
  effect trace) and the settlement state machine of AuthPopup.waitForResult,
  AuthPopup.setupCommunication and AuthPopup.handleMessage, given as a step
  function over an explicit state record driven by the four wake-up sources
  (window message, broadcast-channel message, liveness-poll tick, deadline
  timer).
-/

/-! ## utils/security.ts -/

/-- Origin-allowlist validation, from validateOrigin in utils/security.ts.
The parseOk parameter models the platform URL constructor: parseOk s is true
exactly when new URL(s) succeeds.  The first component of the result is the
returned Bool; the second records whether the wildcard warning
(console.warn on the asterisk branch) was emitted on this call. -/
def validateOrigin (parseOk : String → Bool) (origin : String)
    (allowedOrigins : List String) : Bool × Bool :=
  if origin = "" then (false, false)
  else if allowedOrigins = [] then (false, false)
  else if allowedOrigins.contains "*" then (true, true)
  else if parseOk origin then (allowedOrigins.contains origin, false)
  else (false, false)

/-- The 66-character verifier charset of generateRandomString in
utils/security.ts. -/
def PKCE_CHARSET : String :=
  "ABCDEFGHIJKLMNOPQRSTUVWXYZabcdefghijklmnopqrstuvwxyz0123456789-._~"

/-- The character produced from one CSPRNG byte x: charset[x % charset.length]
in generateRandomString. -/
def verifierChar (x : Nat) : Char :=
  PKCE_CHARSET.data.getD (x % PKCE_CHARSET.length) 'A'

/-- generateRandomString from utils/security.ts, with the CSPRNG output
(the Uint8Array filled by crypto.getRandomValues) passed in as the list of
byte values; the source maps each byte through charset[x % charset.length]
and joins. -/
def generateRandomString (randomValues : List Nat) : String :=
  ⟨randomValues.map verifierChar⟩

/-- The base64 alphabet used by the platform btoa primitive. -/
def BASE64_ALPHABET : String :=
  "ABCDEFGHIJKLMNOPQRSTUVWXYZabcdefghijklmnopqrstuvwxyz0123456789+/"

/-- One base64 digit. -/
def b64Char (n : Nat) : Char :=
  BASE64_ALPHABET.data.getD n 'A'

/-- Standard base64 of a byte list, 3-byte groups, with trailing padding:
this models btoa applied to the binary string built byte-by-byte with
String.fromCharCode in base64URLEncode. -/
def btoaChunks : List Nat → List Char
  | [] => []
  | [a] => [b64Char (a / 4 % 64), b64Char (a % 4 * 16), '=', '=']
  | [a, b] => [b64Char (a / 4 % 64), b64Char (a % 4 * 16 + b / 16), b64Char (b % 16 * 4), '=']
  | a :: b :: c :: rest =>
      b64Char (a / 4 % 64) :: b64Char (a % 4 * 16 + b / 16) ::
      b64Char (b % 16 * 4 + c / 64) :: b64Char (c % 64) :: btoaChunks rest

/-- base64URLEncode from utils/security.ts: btoa of the bytes, then the three
global replacements plus to minus, slash to underscore, and removal of every
padding sign. -/
def base64URLEncode (bytes : List Nat) : String :=
  ⟨((btoaChunks bytes).map fun c =>
      if c = '+' then '-' else if c = '/' then '_' else c).filter fun c => !(c = '=')⟩

/-- PKCE challenge triple, from types.ts. -/
structure PKCEChallenge where
  codeVerifier : String
  codeChallenge : String
  codeChallengeMethod : String
deriving DecidableEq

/-- generatePKCE from utils/security.ts.  sha256 models the platform digest
crypto.subtle.digest applied to the UTF-8 encoding of its argument (a platform
primitive, passed as a parameter); randomBytes models the 128 CSPRNG bytes
drawn by generateRandomString(128). -/
def generatePKCE (sha256 : String → List Nat) (randomBytes : List Nat) : PKCEChallenge :=
  let codeVerifier := generateRandomString randomBytes
  { codeVerifier := codeVerifier
    codeChallenge := base64URLEncode (sha256 codeVerifier)
    codeChallengeMethod := "S256" }

/-! ## callback-handler.ts -/

/-- The characters stripped by CallbackHandler.sanitizeParam: the regex
class of angle brackets, double quote (34), apostrophe (39), backquote (96),
the C0 range x00-x1f and DEL x7f. -/
def isForbiddenChar (c : Char) : Bool :=
  c = '<' || c = '>' || c = Char.ofNat 34 || c = Char.ofNat 39 || c = Char.ofNat 96 ||
  c.toNat ≤ 0x1f || c.toNat = 0x7f

/-- The strip-then-truncate core of sanitizeParam: remove every forbidden
character, then substring(0, 2048). -/
def sanitizeCore (s : String) : String :=
  ⟨((s.data.filter fun c => !isForbiddenChar c).take 2048)⟩

/-- JavaScript truthiness of a string-or-null value: null and the empty
string are falsy. -/
def truthy : Option String → Bool
  | none => false
  | some s => !(s = "")

/-- JavaScript a || b on string-or-null values. -/
def jsOr : Option String → Option String → Option String
  | none, b => b
  | some v, b => if v = "" then b else some v

/-- JavaScript x || undefined on a string-or-null value, as used for the
optional state and error_description fields of the classified result. -/
def orUndefined (v : Option String) : Option String :=
  if truthy v then v else none

namespace CallbackHandler

/-- CallbackHandler.sanitizeParam from callback-handler.ts: null and the
empty string map to null; otherwise strip the forbidden characters and
truncate to 2048. -/
def sanitizeParam : Option String → Option String
  | none => none
  | some v => if v = "" then none else some (sanitizeCore v)

/-- The callback page location: the query string and the fragment, each as
the decoded key/value pairs seen by URLSearchParams. -/
structure Location where
  search : List (String × String)
  hash : List (String × String)
deriving DecidableEq

/-- URLSearchParams.get: the value of the first pair with the given key, or
null when the key is absent. -/
def getParam (pairs : List (String × String)) (key : String) : Option String :=
  (pairs.find? fun p => p.1 = key).map fun p => p.2

/-- Raw extraction of one recognized key, params.get(key) || hash.get(key)
in CallbackHandler.process. -/
def extractParam (loc : Location) (key : String) : Option String :=
  jsOr (getParam loc.search key) (getParam loc.hash key)

/-- The classified callback outcome: the AuthResult or AuthError union of
types.ts. -/
inductive AuthData
  | ok (code : String) (state : Option String)
  | err (error : String) (error_description : Option String)
deriving DecidableEq

/-- The try-block of CallbackHandler.process: extract and sanitize the four
recognized keys, then classify in source order (error first, then code, then
the invalid_callback fallback). -/
def processBody (loc : Location) : Bool × AuthData :=
  let code := sanitizeParam (extractParam loc "code")
  let state := sanitizeParam (extractParam loc "state")
  let error := sanitizeParam (extractParam loc "error")
  let errorDescription := sanitizeParam (extractParam loc "error_description")
  if truthy error then
    (false, .err (error.getD "") (orUndefined errorDescription))
  else if truthy code then
    (true, .ok (code.getD "") (orUndefined state))
  else
    (false, .err "invalid_callback" (some "No authorization code or error found in callback URL"))

/-- CallbackHandler.process with its catch branch: the location read can
fail (modelled as an Except carrying the exception message), and any such
exception is classified as callback_error rather than rethrown. -/
def process (locRes : Except String Location) : Bool × AuthData :=
  match locRes with
  | .ok loc => processBody loc
  | .error msg => (false, .err "callback_error" (some msg))

/-- CallbackOptions from types.ts (fields beyond the allowlist do not affect
the classified result). -/
structure CallbackOptions where
  allowedOrigins : List String
  autoClose : Option Bool := none
  redirectUrl : Option String := none
deriving DecidableEq

/-- CallbackHandler.init: the constructor validates the allowlist, throwing
an Error (the Except.error case) when it is empty, before process runs. -/
def init (options : CallbackOptions) (locRes : Except String Location) :
    Except String (Bool × AuthData) :=
  if options.allowedOrigins = [] then
    .error "allowedOrigins is required and must be a non-empty array"
  else
    .ok (process locRes)

end CallbackHandler

/-- handleCallback from callback-handler.ts: delegates to
CallbackHandler.init. -/
def handleCallback (options : CallbackHandler.CallbackOptions)
    (locRes : Except String CallbackHandler.Location) :
    Except String (Bool × CallbackHandler.AuthData) :=
  CallbackHandler.init options locRes

/-- Whether an Except value is a normal return (no exception escaped). -/
def exceptOk {ε α : Type} : Except ε α → Bool
  | .ok _ => true
  | .error _ => false

/-! ## auth-popup.ts -/

namespace AuthPopup

/-- The data field of a CallbackMessage as read by AuthPopup.handleMessage:
each recognized property is either present (a string) or absent. -/
structure MsgPayload where
  code : Option String := none
  state : Option String := none
  error : Option String := none
  error_description : Option String := none
deriving DecidableEq

/-- An inbound MessageEvent data value: either not an object (dropped by the
typeof guard of handleMessage) or an object with a type tag and a payload. -/
inductive MsgData
  | nonObject
  | obj (type : String) (payload : MsgPayload)
deriving DecidableEq

/-- A settled outcome of waitForResult: resolve with an AuthResult or reject
with an Error whose message is recorded. -/
inductive Outcome
  | success (code : String) (state : Option String)
  | failure (message : String)
deriving DecidableEq

/-- The per-request configuration consulted by the settlement machinery. -/
structure Config where
  allowedOrigins : List String
  forceClosePopup : Bool
deriving DecidableEq

/-- The state owned by one waitForResult call: the isSettled latch, the
armed/attached resources (deadline timer, liveness poll interval, window
message listener, broadcast channel), the popup handle, and the delivered
outcome of the promise. -/
structure WaitState where
  isSettled : Bool
  timeoutArmed : Bool
  intervalArmed : Bool
  listenerAttached : Bool
  channelOpen : Bool
  popupRef : Bool
  outcome : Option Outcome
deriving DecidableEq

/-- The four wake-up sources of the pending request.  Window and channel
messages carry the sender origin from the MessageEvent; the liveness tick
carries the environment observation of popup.closed. -/
inductive Event
  | windowMessage (origin : String) (data : MsgData)
  | channelMessage (origin : String) (data : MsgData)
  | intervalTick (popupClosed : Bool)
  | timeoutFire
deriving DecidableEq

/-- The cleanup closure of waitForResult: clear the deadline timer, clear
the poll interval, remove the message listener, close the broadcast channel,
and drop the popup handle when a close was requested. -/
def cleanupState (cfg : Config) (s : WaitState) (forceClose : Bool) : WaitState :=
  { s with
    timeoutArmed := false
    intervalArmed := false
    listenerAttached := false
    channelOpen := false
    popupRef := if forceClose || cfg.forceClosePopup then false else s.popupRef }

/-- handleSuccess: the isSettled latch, then cleanup(), then resolve. -/
def settleSuccess (cfg : Config) (s : WaitState) (code : String)
    (state : Option String) : WaitState :=
  if s.isSettled then s
  else { cleanupState cfg s false with
         isSettled := true
         outcome := some (.success code state) }

/-- handleError: the isSettled latch, then cleanup(forceClose), then reject. -/
def settleError (cfg : Config) (s : WaitState) (message : String)
    (forceClose : Bool) : WaitState :=
  if s.isSettled then s
  else { cleanupState cfg s forceClose with
         isSettled := true
         outcome := some (.failure message) }

/-- The rejection message built from an auth-error payload:
new Error(error.error_description || error.error). -/
def errMessage (p : MsgPayload) : String :=
  (jsOr p.error_description p.error).getD ""

/-- AuthPopup.handleMessage: drop non-objects; on auth-success require a
truthy code before resolving with the payload; on auth-error reject; ignore
any other type tag. -/
def handleMessage (cfg : Config) (s : WaitState) (data : MsgData) : WaitState :=
  match data with
  | .nonObject => s
  | .obj t p =>
    if t = "auth-success" then
      match p.code with
      | some c => if c = "" then s else settleSuccess cfg s c p.state
      | none => s
    else if t = "auth-error" then
      settleError cfg s (errMessage p) false
    else s

/-- One step of the pending request on one wake-up source.  A source fires
only while its resource is still armed (a cleared timer cannot fire, a
removed listener and a closed channel receive nothing).  The window message
listener of setupCommunication validates the sender origin via
validateOrigin before delegating to handleMessage; the broadcast-channel
subscription of waitForResult delegates unconditionally.  The liveness poll
settles popup-closed only when the handle exists and is observed closed; the
deadline timer settles the timeout with forced close. -/
def step (parseOk : String → Bool) (cfg : Config) (s : WaitState) : Event → WaitState
  | .windowMessage origin data =>
    if s.listenerAttached then
      if (validateOrigin parseOk origin cfg.allowedOrigins).1 then
        handleMessage cfg s data
      else s
    else s
  | .channelMessage _ data =>
    if s.channelOpen then handleMessage cfg s data else s
  | .intervalTick popupClosed =>
    if s.intervalArmed then
      if s.popupRef && popupClosed then
        settleError cfg s "Authorization popup was closed" false
      else s
    else s
  | .timeoutFire =>
    if s.timeoutArmed then settleError cfg s "Authorization timeout" true else s

/-- Iterated steps over a sequence of wake-up events. -/
def runEvents (parseOk : String → Bool) (cfg : Config) (s : WaitState) :
    List Event → WaitState
  | [] => s
  | e :: rest => runEvents parseOk cfg (step parseOk cfg s e) rest

/-- The state of a freshly armed request, as left by setupCommunication and
the waitForResult executor: pending, both timers armed, listener attached,
channel open when the platform supports broadcast channels, popup handle
live. -/
def initWaitState (channelSupported : Bool) : WaitState :=
  { isSettled := false
    timeoutArmed := true
    intervalArmed := true
    listenerAttached := true
    channelOpen := channelSupported
    popupRef := true
    outcome := none }

/-- A JavaScript number as validated by the option checks: NaN, the two
infinities, or a finite value. -/
inductive JSNum
  | nan
  | posInf
  | negInf
  | num (q : ℚ)
deriving DecidableEq

/-- Number.isFinite(x) and x strictly positive, the guard applied to width,
height and timeout. -/
def JSNum.isFinitePos : JSNum → Bool
  | .num q => decide (0 < q)
  | _ => false

/-- AuthPopupOptions from types.ts; absent optional fields are none. -/
structure AuthPopupOptions where
  authUrl : String
  width : Option JSNum := none
  height : Option JSNum := none
  timeout : Option JSNum := none
  redirectFallback : Option Bool := none
  allowedOrigins : Option (List String) := none
  forceClosePopup : Option Bool := none
deriving DecidableEq

/-- The platform facts consulted by authorize: the current page origin (the
allowlist default), the probe verdict of detectBrowser().supportsPopup, the
isPopupBlocked verdict on the opened handle, and broadcast-channel support. -/
structure BrowserEnv where
  windowOrigin : String
  supportsPopup : Bool
  popupBlocked : Bool
  channelSupported : Bool
deriving DecidableEq

/-- Observable side effects of authorize, in program order. -/
inductive Effect
  | windowOpen (url : String) (target : String)
  | redirectNavigate (url : String)
  | openBroadcastChannel
  | addMessageListener
  | startInterval
  | startTimeout
deriving DecidableEq

/-- The exceptions authorize can raise: the validation errors (the spec
taxonomy calls these ConfigurationError) and the popup-blocked failures. -/
inductive AuthException
  | configError (message : String)
  | popupBlocked (redirecting : Bool)
deriving DecidableEq

/-- Whether an authorize result is a validation failure. -/
def isConfigError {α : Type} : Except AuthException α → Bool
  | .error (.configError _) => true
  | _ => false

/-- AuthPopup.authorize up to the point where the request is armed,
returning the per-request config and the armed wait state together with the
trace of observable side effects.  Validation (authUrl required and truthy,
URL parse, finite positive width, height, timeout, non-empty allowlist)
happens in source order before window.open; the popup-blocked check follows
the open, and a non-blocked open arms the channels, the liveness poll and
the deadline timer. -/
def authorize (parseOk : String → Bool) (env : BrowserEnv)
    (opts : AuthPopupOptions) :
    Except AuthException (Config × WaitState) × List Effect :=
  if opts.authUrl = "" then
    (.error (.configError "authUrl is required and must be a string"), [])
  else if !(parseOk opts.authUrl) then
    (.error (.configError "Invalid authUrl format"), [])
  else
    let width := opts.width.getD (.num 500)
    let height := opts.height.getD (.num 600)
    let timeout := opts.timeout.getD (.num 120000)
    let redirectFallback := opts.redirectFallback.getD true
    let allowedOrigins := opts.allowedOrigins.getD [env.windowOrigin]
    if !width.isFinitePos then
      (.error (.configError "Invalid width"), [])
    else if !height.isFinitePos then
      (.error (.configError "Invalid height"), [])
    else if !timeout.isFinitePos then
      (.error (.configError "Invalid timeout"), [])
    else if allowedOrigins = [] then
      (.error (.configError "allowedOrigins must be a non-empty array"), [])
    else
      let target := if env.supportsPopup then "auth-popup" else "_blank"
      let openEff := Effect.windowOpen opts.authUrl target
      if env.popupBlocked then
        if redirectFallback then
          (.error (.popupBlocked true), [openEff, .redirectNavigate opts.authUrl])
        else
          (.error (.popupBlocked false), [openEff])
      else
        (.ok (⟨allowedOrigins, opts.forceClosePopup.getD false⟩,
              initWaitState env.channelSupported),
         [openEff] ++
           (if env.channelSupported then [Effect.openBroadcastChannel] else []) ++
           [Effect.addMessageListener, Effect.startInterval, Effect.startTimeout])

end AuthPopup

/-! ## Helper lemmas -/

lemma sanitizeCore_no_forbidden (v : String) :
    ((sanitizeCore v).data.all fun c => !isForbiddenChar c) = true := by
  rw [List.all_eq_true]
  intro c hc
  have hmem : c ∈ v.data.filter fun c => !isForbiddenChar c :=
    List.take_subset _ _ hc
  exact (List.mem_filter.mp hmem).2

lemma sanitizeCore_length_le (v : String) : (sanitizeCore v).length ≤ 2048 := by
  show ((v.data.filter fun c => !isForbiddenChar c).take 2048).length ≤ 2048
  rw [List.length_take]
  exact min_le_left _ _

lemma sanitizeCore_idem (v : String) : sanitizeCore (sanitizeCore v) = sanitizeCore v := by
  unfold sanitizeCore
  congr 1
  have hfix : ((v.data.filter fun c => !isForbiddenChar c).take 2048).filter
      (fun c => !isForbiddenChar c) = (v.data.filter fun c => !isForbiddenChar c).take 2048 := by
    apply List.filter_eq_self.mpr
    intro c hc
    exact (List.mem_filter.mp (List.take_subset _ _ hc)).2
  rw [hfix, List.take_take, min_self]

lemma settleSuccess_settled {cfg : AuthPopup.Config} {s : AuthPopup.WaitState}
    (hs : s.isSettled = true) (c : String) (st : Option String) :
    AuthPopup.settleSuccess cfg s c st = s := by
  simp [AuthPopup.settleSuccess, hs]

lemma settleError_settled {cfg : AuthPopup.Config} {s : AuthPopup.WaitState}
    (hs : s.isSettled = true) (m : String) (f : Bool) :
    AuthPopup.settleError cfg s m f = s := by
  simp [AuthPopup.settleError, hs]

lemma handleMessage_settled {cfg : AuthPopup.Config} {s : AuthPopup.WaitState}
    (hs : s.isSettled = true) (d : AuthPopup.MsgData) :
    AuthPopup.handleMessage cfg s d = s := by
  cases d with
  | nonObject => rfl
  | obj t p =>
    simp only [AuthPopup.handleMessage]
    split
    · cases hc : p.code with
      | none => rfl
      | some c =>
        by_cases hce : c = ""
        · simp [hce]
        · simp [hce, settleSuccess_settled hs]
    · split
      · exact settleError_settled hs _ _
      · rfl

lemma step_settled (parseOk : String → Bool) (cfg : AuthPopup.Config)
    {s : AuthPopup.WaitState} (hs : s.isSettled = true) (e : AuthPopup.Event) :
    AuthPopup.step parseOk cfg s e = s := by
  cases e with
  | windowMessage o d =>
    simp only [AuthPopup.step]
    split
    · split
      · exact handleMessage_settled hs d
      · rfl
    · rfl
  | channelMessage o d =>
    simp only [AuthPopup.step]
    split
    · exact handleMessage_settled hs d
    · rfl
  | intervalTick pc =>
    simp only [AuthPopup.step]
    split
    · split
      · exact settleError_settled hs _ _
      · rfl
    · rfl
  | timeoutFire =>
    simp only [AuthPopup.step]
    split
    · exact settleError_settled hs _ _
    · rfl

lemma runEvents_settled (parseOk : String → Bool) (cfg : AuthPopup.Config)
    {s : AuthPopup.WaitState} (hs : s.isSettled = true) (evs : List AuthPopup.Event) :
    AuthPopup.runEvents parseOk cfg s evs = s := by
  induction evs with
  | nil => rfl
  | cons e rest ih =>
    show AuthPopup.runEvents parseOk cfg (AuthPopup.step parseOk cfg s e) rest = s
    rw [step_settled parseOk cfg hs e, ih]

/-- A settlement of a pending state carries cleared resources and a
delivered outcome. -/
def cleanSettled (t : AuthPopup.WaitState) : Prop :=
  t.timeoutArmed = false ∧ t.intervalArmed = false ∧ t.listenerAttached = false ∧
  t.channelOpen = false ∧ t.outcome.isSome = true

lemma settleSuccess_clean {cfg : AuthPopup.Config} {s : AuthPopup.WaitState}
    (hp : s.isSettled = false) (c : String) (st : Option String) :
    cleanSettled (AuthPopup.settleSuccess cfg s c st) := by
  simp [AuthPopup.settleSuccess, hp, AuthPopup.cleanupState, cleanSettled]

lemma settleError_clean {cfg : AuthPopup.Config} {s : AuthPopup.WaitState}
    (hp : s.isSettled = false) (m : String) (f : Bool) :
    cleanSettled (AuthPopup.settleError cfg s m f) := by
  simp [AuthPopup.settleError, hp, AuthPopup.cleanupState, cleanSettled]

lemma handleMessage_cases {cfg : AuthPopup.Config} {s : AuthPopup.WaitState}
    (hp : s.isSettled = false) (d : AuthPopup.MsgData) :
    AuthPopup.handleMessage cfg s d = s ∨ cleanSettled (AuthPopup.handleMessage cfg s d) := by
  cases d with
  | nonObject => exact Or.inl rfl
  | obj t p =>
    simp only [AuthPopup.handleMessage]
    split
    · split
      · split
        · exact Or.inl rfl
        · exact Or.inr (settleSuccess_clean hp _ _)
      · exact Or.inl rfl
    · split
      · exact Or.inr (settleError_clean hp _ _)
      · exact Or.inl rfl

lemma step_cases (parseOk : String → Bool) (cfg : AuthPopup.Config)
    {s : AuthPopup.WaitState} (hp : s.isSettled = false) (e : AuthPopup.Event) :
    AuthPopup.step parseOk cfg s e = s ∨ cleanSettled (AuthPopup.step parseOk cfg s e) := by
  cases e with
  | windowMessage o d =>
    simp only [AuthPopup.step]
    split
    · split
      · exact handleMessage_cases hp d
      · exact Or.inl rfl
    · exact Or.inl rfl
  | channelMessage o d =>
    simp only [AuthPopup.step]
    split
    · exact handleMessage_cases hp d
    · exact Or.inl rfl
  | intervalTick pc =>
    simp only [AuthPopup.step]
    split
    · split
      · exact Or.inr (settleError_clean hp _ _)
      · exact Or.inl rfl
    · exact Or.inl rfl
  | timeoutFire =>
    simp only [AuthPopup.step]
    split
    · exact Or.inr (settleError_clean hp _ _)
    · exact Or.inl rfl

lemma step_settles_clean (parseOk : String → Bool) (cfg : AuthPopup.Config)
    {s : AuthPopup.WaitState} (hp : s.isSettled = false) (e : AuthPopup.Event)
    (hset : (AuthPopup.step parseOk cfg s e).isSettled = true) :
    cleanSettled (AuthPopup.step parseOk cfg s e) := by
  rcases step_cases parseOk cfg hp e with h | h
  · rw [h, hp] at hset
    exact absurd hset (by simp)
  · exact h

lemma validateOrigin_false_of_not_mem (parseOk : String → Bool) (origin : String)
    (allow : List String) (hmem : origin ∉ allow) (hwild : "*" ∉ allow) :
    (validateOrigin parseOk origin allow).1 = false := by
  unfold validateOrigin
  split_ifs with h1 h2 h3 h4 <;>
    simp_all [List.contains, List.elem_eq_mem]

/-! ## Claims -/

/-- C1.  For every valid request, the promise returned by AuthPopup.open
settles exactly once: once a state is settled, any sequence of later events
on any source leaves it untouched (the run is the identity), and the step
that first settles a pending state leaves the deadline timer cleared, the
liveness poll cleared, the message listener removed, the broadcast channel
closed, and an outcome delivered, regardless of which event settled it. -/
theorem auth_open_settles_exactly_once (parseOk : String → Bool)
    (cfg : AuthPopup.Config) (s : AuthPopup.WaitState) (e : AuthPopup.Event)
    (evs : List AuthPopup.Event) :
    (s.isSettled = true → AuthPopup.runEvents parseOk cfg s evs = s) ∧
    (s.isSettled = false → (AuthPopup.step parseOk cfg s e).isSettled = true →
      (AuthPopup.step parseOk cfg s e).timeoutArmed = false ∧
      (AuthPopup.step parseOk cfg s e).intervalArmed = false ∧
      (AuthPopup.step parseOk cfg s e).listenerAttached = false ∧
      (AuthPopup.step parseOk cfg s e).channelOpen = false ∧
      (AuthPopup.step parseOk cfg s e).outcome.isSome = true) :=
  ⟨fun hs => runEvents_settled parseOk cfg hs evs,
   fun hp hset => step_settles_clean parseOk cfg hp e hset⟩

/-- Witness for C1 at concrete inputs: replaying two events against an
already settled state changes nothing, and the timeout event on a freshly
armed state settles it with all resources torn down. -/
theorem auth_open_settles_exactly_once_witness :
    (AuthPopup.runEvents (fun _ => true) ⟨["https://app.example"], false⟩
        ⟨true, false, false, false, false, false, some (.failure "Authorization timeout")⟩
        [AuthPopup.Event.timeoutFire,
         AuthPopup.Event.channelMessage "https://app.example"
           (.obj "auth-success" ⟨some "c", none, none, none⟩)] =
      ⟨true, false, false, false, false, false, some (.failure "Authorization timeout")⟩) ∧
    ((AuthPopup.step (fun _ => true) ⟨["https://app.example"], false⟩
        (AuthPopup.initWaitState true) AuthPopup.Event.timeoutFire).timeoutArmed = false ∧
      (AuthPopup.step (fun _ => true) ⟨["https://app.example"], false⟩
        (AuthPopup.initWaitState true) AuthPopup.Event.timeoutFire).intervalArmed = false ∧
      (AuthPopup.step (fun _ => true) ⟨["https://app.example"], false⟩
        (AuthPopup.initWaitState true) AuthPopup.Event.timeoutFire).listenerAttached = false ∧
      (AuthPopup.step (fun _ => true) ⟨["https://app.example"], false⟩
        (AuthPopup.initWaitState true) AuthPopup.Event.timeoutFire).channelOpen = false ∧
      (AuthPopup.step (fun _ => true) ⟨["https://app.example"], false⟩
        (AuthPopup.initWaitState true) AuthPopup.Event.timeoutFire).outcome.isSome = true) :=
  ⟨(auth_open_settles_exactly_once (fun _ => true) ⟨["https://app.example"], false⟩
      ⟨true, false, false, false, false, false, some (.failure "Authorization timeout")⟩
      AuthPopup.Event.timeoutFire
      [AuthPopup.Event.timeoutFire,
       AuthPopup.Event.channelMessage "https://app.example"
         (.obj "auth-success" ⟨some "c", none, none, none⟩)]).1 rfl,
   (auth_open_settles_exactly_once (fun _ => true) ⟨["https://app.example"], false⟩
      (AuthPopup.initWaitState true) AuthPopup.Event.timeoutFire []).2 rfl (by decide)⟩

/-- C2 counterexample.  The claim quantifies over both delivery channels,
but the broadcast-channel subscription installed by waitForResult performs
no origin validation: a success message whose sender origin is in no
allowlist (and with no wildcard entry) settles a freshly armed pending
request, an observable state change. -/
theorem broadcast_message_ignores_allowlist_cex :
    (["https://parent.example"] : List String).contains "https://evil.example" = false ∧
    (["https://parent.example"] : List String).contains "*" = false ∧
    (AuthPopup.initWaitState true).isSettled = false ∧
    (AuthPopup.step (fun _ => true) ⟨["https://parent.example"], false⟩
        (AuthPopup.initWaitState true)
        (.channelMessage "https://evil.example"
          (.obj "auth-success" ⟨some "abc", none, none, none⟩))).isSettled = true ∧
    (AuthPopup.step (fun _ => true) ⟨["https://parent.example"], false⟩
        (AuthPopup.initWaitState true)
        (.channelMessage "https://evil.example"
          (.obj "auth-success" ⟨some "abc", none, none, none⟩))).outcome =
      some (.success "abc" none) := by
  decide

/-- C2 amended.  Origin filtering holds on the window message channel: a
window message whose sender origin is not in the allowlist, when the
allowlist holds no wildcard, is dropped by the listener installed by
setupCommunication — it never settles the pending request and causes no
state change.  Broadcast-channel messages are delivered to handleMessage
without any origin validation (the platform itself restricts that channel
to same-origin senders). -/
theorem window_message_unauthorized_origin_noop (parseOk : String → Bool)
    (cfg : AuthPopup.Config) (s : AuthPopup.WaitState) (origin : String)
    (data : AuthPopup.MsgData)
    (hmem : origin ∉ cfg.allowedOrigins) (hwild : "*" ∉ cfg.allowedOrigins) :
    AuthPopup.step parseOk cfg s (.windowMessage origin data) = s := by
  have hv := validateOrigin_false_of_not_mem parseOk origin cfg.allowedOrigins hmem hwild
  simp only [AuthPopup.step]
  split
  · rw [hv]
    simp
  · rfl

/-- Witness for C2 amended: a window message from an unlisted origin leaves
a freshly armed state untouched. -/
theorem window_message_unauthorized_origin_noop_witness :
    AuthPopup.step (fun _ => true) ⟨["https://parent.example"], false⟩
        (AuthPopup.initWaitState true)
        (.windowMessage "https://evil.example"
          (.obj "auth-success" ⟨some "abc", none, none, none⟩)) =
      AuthPopup.initWaitState true :=
  window_message_unauthorized_origin_noop (fun _ => true)
    ⟨["https://parent.example"], false⟩ (AuthPopup.initWaitState true)
    "https://evil.example" (.obj "auth-success" ⟨some "abc", none, none, none⟩)
    (by decide) (by decide)

/-- C3.  The callback processor classifies in source order: a truthy
sanitized error parameter yields the failure result carrying that code and
the optional sanitized description; otherwise a truthy sanitized code yields
the success result carrying the code and the optional sanitized state;
otherwise the invalid_callback failure is returned. -/
theorem callback_classification_order (search hash : List (String × String)) :
    (truthy (CallbackHandler.sanitizeParam
        (CallbackHandler.extractParam ⟨search, hash⟩ "error")) = true →
      CallbackHandler.processBody ⟨search, hash⟩ =
        (false, .err
          ((CallbackHandler.sanitizeParam
            (CallbackHandler.extractParam ⟨search, hash⟩ "error")).getD "")
          (orUndefined (CallbackHandler.sanitizeParam
            (CallbackHandler.extractParam ⟨search, hash⟩ "error_description"))))) ∧
    (truthy (CallbackHandler.sanitizeParam
        (CallbackHandler.extractParam ⟨search, hash⟩ "error")) = false →
      truthy (CallbackHandler.sanitizeParam
        (CallbackHandler.extractParam ⟨search, hash⟩ "code")) = true →
      CallbackHandler.processBody ⟨search, hash⟩ =
        (true, .ok
          ((CallbackHandler.sanitizeParam
            (CallbackHandler.extractParam ⟨search, hash⟩ "code")).getD "")
          (orUndefined (CallbackHandler.sanitizeParam
            (CallbackHandler.extractParam ⟨search, hash⟩ "state"))))) ∧
    (truthy (CallbackHandler.sanitizeParam
        (CallbackHandler.extractParam ⟨search, hash⟩ "error")) = false →
      truthy (CallbackHandler.sanitizeParam
        (CallbackHandler.extractParam ⟨search, hash⟩ "code")) = false →
      CallbackHandler.processBody ⟨search, hash⟩ =
        (false, .err "invalid_callback"
          (some "No authorization code or error found in callback URL"))) := by
  refine ⟨fun he => ?_, fun he hc => ?_, fun he hc => ?_⟩ <;>
    simp [CallbackHandler.processBody, he]
  · simp [hc]
  · simp [hc]

/-- Witness for C3: the three spec scenarios — an error redirect, a code
redirect, and a redirect with neither parameter. -/
theorem callback_classification_order_witness :
    CallbackHandler.processBody
        ⟨[("error", "access_denied"), ("error_description", "User cancelled")], []⟩ =
      (false, .err "access_denied" (some "User cancelled")) ∧
    CallbackHandler.processBody ⟨[("code", "abc123"), ("state", "xyz")], []⟩ =
      (true, .ok "abc123" (some "xyz")) ∧
    CallbackHandler.processBody ⟨[], []⟩ =
      (false, .err "invalid_callback"
        (some "No authorization code or error found in callback URL")) :=
  ⟨((callback_classification_order
      [("error", "access_denied"), ("error_description", "User cancelled")] []).1
      (by decide)).trans (by decide),
   ((callback_classification_order [("code", "abc123"), ("state", "xyz")] []).2.1
      (by decide) (by decide)).trans (by decide),
   (callback_classification_order [] []).2.2 (by decide) (by decide)⟩

/-- C4 counterexample.  sanitizeParam is not idempotent as claimed: on a
non-empty input consisting only of forbidden characters the first pass
returns the empty string, while the second pass maps the empty string to
null. -/
theorem sanitize_not_idempotent_cex :
    CallbackHandler.sanitizeParam (some "<") = some "" ∧
    CallbackHandler.sanitizeParam (CallbackHandler.sanitizeParam (some "<")) = none ∧
    (CallbackHandler.sanitizeParam (CallbackHandler.sanitizeParam (some "<")) ==
      CallbackHandler.sanitizeParam (some "<")) = false := by
  decide

/-- C4 amended.  sanitizeParam (sanitizeParam x) = sanitizeParam x for every
x except when sanitizeParam x is the empty string (that is, when x is a
non-empty string whose characters are all forbidden), in which case the
second application collapses the empty string to null; in every case the
sanitized string contains no forbidden character and has length at most
2048. -/
theorem sanitize_idempotent_unless_collapsed (x : Option String) :
    (CallbackHandler.sanitizeParam (CallbackHandler.sanitizeParam x) =
        CallbackHandler.sanitizeParam x ∨
      (CallbackHandler.sanitizeParam x = some "" ∧
        CallbackHandler.sanitizeParam (CallbackHandler.sanitizeParam x) = none)) ∧
    (((CallbackHandler.sanitizeParam x).getD "").data.all fun c => !isForbiddenChar c) = true ∧
    ((CallbackHandler.sanitizeParam x).getD "").length ≤ 2048 := by
  cases x with
  | none => exact ⟨Or.inl rfl, rfl, by decide⟩
  | some v =>
    by_cases hv : v = ""
    · subst hv
      exact ⟨Or.inl rfl, rfl, by decide⟩
    · have hs : CallbackHandler.sanitizeParam (some v) = some (sanitizeCore v) := by
        simp [CallbackHandler.sanitizeParam, hv]
      rw [hs]
      by_cases hc : sanitizeCore v = ""
      · refine ⟨Or.inr ⟨by rw [hc], by simp [CallbackHandler.sanitizeParam, hc]⟩, ?_, ?_⟩
        · exact sanitizeCore_no_forbidden v
        · exact sanitizeCore_length_le v
      · refine ⟨Or.inl ?_, sanitizeCore_no_forbidden v, sanitizeCore_length_le v⟩
        simp [CallbackHandler.sanitizeParam, hc, sanitizeCore_idem v]

/-- C7 counterexample.  handleCallback does throw on invalid options: an
empty origin allowlist makes the CallbackHandler constructor raise before
process runs, so the error escapes as an exception instead of being
returned as classified data. -/
theorem handleCallback_empty_allowlist_throws_cex :
    exceptOk (handleCallback ⟨[], none, none⟩ (.ok ⟨[], []⟩)) = false ∧
    handleCallback ⟨[], none, none⟩ (.ok ⟨[], []⟩) =
      .error "allowedOrigins is required and must be a non-empty array" :=
  ⟨rfl, rfl⟩

/-- C7 amended.  Once the options carry a non-empty origin allowlist,
handleCallback never throws: every path, including an exception raised
while reading the callback location, returns a classified result. -/
theorem handleCallback_noexcept_valid_options
    (opts : CallbackHandler.CallbackOptions)
    (locRes : Except String CallbackHandler.Location)
    (h : opts.allowedOrigins ≠ []) :
    exceptOk (handleCallback opts locRes) = true := by
  simp [handleCallback, CallbackHandler.init, h, exceptOk]

/-- Witness for C7 amended: a valid allowlist with a failing location read
still yields a normal classified return. -/
theorem handleCallback_noexcept_valid_options_witness :
    exceptOk (handleCallback ⟨["https://parent.example"], none, none⟩
      (.error "location unavailable")) = true :=
  handleCallback_noexcept_valid_options ⟨["https://parent.example"], none, none⟩
    (.error "location unavailable") (by decide)

/-- C8 counterexample.  The key code exists in both the query string (with
the empty value) and the fragment, but the processor classifies using the
fragment value abc, not the query value: precedence is by truthiness, not
by existence. -/
theorem query_empty_falls_back_to_fragment_cex :
    CallbackHandler.getParam [("code", "")] "code" = some "" ∧
    CallbackHandler.getParam [("code", "abc")] "code" = some "abc" ∧
    CallbackHandler.processBody ⟨[("code", "")], [("code", "abc")]⟩ =
      (true, .ok "abc" none) := by
  decide

/-- C8 amended.  For each recognized key, the query value is used whenever
it is present and non-empty; when the key is absent from the query or its
query value is the empty string, extraction falls back to the fragment
value. -/
theorem query_precedence_when_truthy (search hash : List (String × String))
    (key : String) :
    (∀ v : String, CallbackHandler.getParam search key = some v → v ≠ "" →
      CallbackHandler.extractParam ⟨search, hash⟩ key = some v) ∧
    ((CallbackHandler.getParam search key = none ∨
        CallbackHandler.getParam search key = some "") →
      CallbackHandler.extractParam ⟨search, hash⟩ key =
        CallbackHandler.getParam hash key) := by
  constructor
  · intro v hq hne
    unfold CallbackHandler.extractParam
    rw [hq]
    simp [jsOr, hne]
  · intro hq
    rcases hq with hq | hq <;>
      simp [CallbackHandler.extractParam, hq, jsOr]

/-- Witness for C8 amended: a non-empty query value wins over the fragment,
and an empty query value defers to the fragment. -/
theorem query_precedence_when_truthy_witness :
    CallbackHandler.extractParam ⟨[("code", "q")], [("code", "f")]⟩ "code" = some "q" ∧
    CallbackHandler.extractParam ⟨[("code", "")], [("code", "f")]⟩ "code" =
      CallbackHandler.getParam [("code", "f")] "code" :=
  ⟨(query_precedence_when_truthy [("code", "q")] [("code", "f")] "code").1 "q"
      (by decide) (by decide),
   (query_precedence_when_truthy [("code", "")] [("code", "f")] "code").2
      (Or.inr (by decide))⟩

lemma verifierChar_mem (x : Nat) : verifierChar x ∈ PKCE_CHARSET.data := by
  have hlt : x % PKCE_CHARSET.length < PKCE_CHARSET.data.length :=
    Nat.mod_lt x (by decide)
  unfold verifierChar
  rw [List.getD_eq_getElem?_getD, List.getElem?_eq_getElem hlt, Option.getD_some]
  exact List.getElem_mem hlt

lemma base64URLEncode_no_padding (bytes : List Nat) :
    ((base64URLEncode bytes).data.contains '=') = false := by
  show ((((btoaChunks bytes).map fun c =>
      if c = '+' then '-' else if c = '/' then '_' else c).filter
        fun c => !(c = '=')).contains '=') = false
  simp [List.elem_eq_mem, List.mem_filter]

set_option maxRecDepth 4000 in
/-- C5 counterexample.  The verifier characters are not drawn uniformly
from the 66-character charset: the byte-to-character map of
generateRandomString reduces a uniform byte modulo 66, and since 256 is not
a multiple of 66, under a uniform CSPRNG byte the first charset character
has probability 4/256 while the last has probability 3/256. -/
theorem verifier_charset_modulo_bias_cex :
    ((List.range 256).countP fun b => verifierChar b = 'A') = 4 ∧
    ((List.range 256).countP fun b => verifierChar b = '~') = 3 := by
  decide

/-- C5 amended.  Every generatePKCE pair has a 128-character verifier drawn
from the 66-character charset (each character charset[b % 66] for a CSPRNG
byte b — close to, but not exactly, uniform), a challenge equal to the
padding-free base64url encoding of the SHA-256 digest of the verifier, and
the constant method S256. -/
theorem generatePKCE_shape (sha256 : String → List Nat) (randomBytes : List Nat)
    (h : randomBytes.length = 128) :
    (generatePKCE sha256 randomBytes).codeVerifier.length = 128 ∧
    ((generatePKCE sha256 randomBytes).codeVerifier.data.all
      fun c => PKCE_CHARSET.data.contains c) = true ∧
    (generatePKCE sha256 randomBytes).codeChallenge =
      base64URLEncode (sha256 (generatePKCE sha256 randomBytes).codeVerifier) ∧
    ((generatePKCE sha256 randomBytes).codeChallenge.data.contains '=') = false ∧
    (generatePKCE sha256 randomBytes).codeChallengeMethod = "S256" := by
  refine ⟨?_, ?_, rfl, base64URLEncode_no_padding _, rfl⟩
  · show (randomBytes.map verifierChar).length = 128
    rw [List.length_map, h]
  · show (randomBytes.map verifierChar).all (fun c => PKCE_CHARSET.data.contains c) = true
    rw [List.all_eq_true]
    intro c hc
    obtain ⟨x, _, rfl⟩ := List.mem_map.mp hc
    simpa [List.elem_eq_mem] using verifierChar_mem x

/-- Witness for C5 amended at a concrete digest function and byte list. -/
theorem generatePKCE_shape_witness :
    (generatePKCE (fun _ => [0, 1, 2]) (List.replicate 128 0)).codeVerifier.length = 128 ∧
    ((generatePKCE (fun _ => [0, 1, 2]) (List.replicate 128 0)).codeVerifier.data.all
      fun c => PKCE_CHARSET.data.contains c) = true ∧
    (generatePKCE (fun _ => [0, 1, 2]) (List.replicate 128 0)).codeChallenge =
      base64URLEncode ((fun _ => [0, 1, 2])
        (generatePKCE (fun _ => [0, 1, 2]) (List.replicate 128 0)).codeVerifier) ∧
    ((generatePKCE (fun _ => [0, 1, 2]) (List.replicate 128 0)).codeChallenge.data.contains '=') =
      false ∧
    (generatePKCE (fun _ => [0, 1, 2]) (List.replicate 128 0)).codeChallengeMethod = "S256" :=
  generatePKCE_shape (fun _ => [0, 1, 2]) (List.replicate 128 0) (by simp)

/-- C6.  Any validation violation — an authorization URL that does not
parse, a non-finite or non-positive width, height or timeout, or an empty
origin allowlist — makes authorize fail with the validation error (the
ConfigurationError of the spec taxonomy) with an empty side-effect trace:
no window is opened, no listener attached, no timer armed, no channel
created, no redirect issued. -/
theorem authorize_validation_no_side_effects (parseOk : String → Bool)
    (env : AuthPopup.BrowserEnv) (opts : AuthPopup.AuthPopupOptions)
    (h : parseOk opts.authUrl = false ∨
      (opts.width.getD (AuthPopup.JSNum.num 500)).isFinitePos = false ∨
      (opts.height.getD (AuthPopup.JSNum.num 600)).isFinitePos = false ∨
      (opts.timeout.getD (AuthPopup.JSNum.num 120000)).isFinitePos = false ∨
      opts.allowedOrigins.getD [env.windowOrigin] = []) :
    (AuthPopup.authorize parseOk env opts).2 = [] ∧
    AuthPopup.isConfigError (AuthPopup.authorize parseOk env opts).1 = true := by
  unfold AuthPopup.authorize
  by_cases h1 : opts.authUrl = ""
  · simp [h1, AuthPopup.isConfigError]
  · by_cases h2 : parseOk opts.authUrl = true
    · by_cases hw : (opts.width.getD (AuthPopup.JSNum.num 500)).isFinitePos = true
      · by_cases hh : (opts.height.getD (AuthPopup.JSNum.num 600)).isFinitePos = true
        · by_cases ht : (opts.timeout.getD (AuthPopup.JSNum.num 120000)).isFinitePos = true
          · by_cases ha : opts.allowedOrigins.getD [env.windowOrigin] = []
            · simp [h1, h2, hw, hh, ht, ha, AuthPopup.isConfigError]
            · exfalso
              rcases h with h | h | h | h | h <;> simp_all
          · simp [h1, h2, hw, hh, ht, AuthPopup.isConfigError]
        · simp [h1, h2, hw, hh, AuthPopup.isConfigError]
      · simp [h1, h2, hw, AuthPopup.isConfigError]
    · simp [h1, h2, AuthPopup.isConfigError]

/-- Witness for C6: a zero width (with everything else well-formed) yields
the validation error and an empty effect trace. -/
theorem authorize_validation_no_side_effects_witness :
    (AuthPopup.authorize (fun _ => true)
      ⟨"https://app.example", true, false, true⟩
      { authUrl := "https://id.example/auth", width := some (AuthPopup.JSNum.num 0) }).2 = [] ∧
    AuthPopup.isConfigError (AuthPopup.authorize (fun _ => true)
      ⟨"https://app.example", true, false, true⟩
      { authUrl := "https://id.example/auth", width := some (AuthPopup.JSNum.num 0) }).1 = true :=
  authorize_validation_no_side_effects (fun _ => true)
    ⟨"https://app.example", true, false, true⟩
    { authUrl := "https://id.example/auth", width := some (AuthPopup.JSNum.num 0) }
    (Or.inr (Or.inl (by decide)))

/-- C9 counterexample.  validateOrigin is not an exact membership test: the
empty origin is rejected up front, so an allowlist containing the empty
string (membership holds) still yields false, and even a wildcard allowlist
does not short-circuit to trusted for it. -/
theorem validateOrigin_not_plain_membership_cex :
    ("" ∈ ([""] : List String)) ∧
    (validateOrigin (fun _ => true) "" [""]).1 = false ∧
    ("*" ∈ (["*"] : List String)) ∧
    (validateOrigin (fun _ => true) "" ["*"]).1 = false := by
  decide

/-- C9 amended.  validateOrigin accepts exactly the non-empty origins
checked against a non-empty allowlist that either holds the wildcard (which
short-circuits to trusted) or, for origins the platform URL parser accepts,
holds the origin itself; the wildcard warning is emitted exactly when the
wildcard branch is exercised. -/
theorem validateOrigin_characterization (parseOk : String → Bool)
    (origin : String) (allow : List String) :
    ((validateOrigin parseOk origin allow).1 = true ↔
      (origin ≠ "" ∧ allow ≠ [] ∧
        ("*" ∈ allow ∨ (parseOk origin = true ∧ origin ∈ allow)))) ∧
    ((validateOrigin parseOk origin allow).2 = true ↔
      (origin ≠ "" ∧ allow ≠ [] ∧ "*" ∈ allow)) := by
  unfold validateOrigin
  split_ifs with h1 h2 h3 h4 <;>
    simp_all [List.elem_eq_mem]

lemma handleMessage_no_code (cfg : AuthPopup.Config) (s : AuthPopup.WaitState)
    (p : AuthPopup.MsgPayload) (h : p.code = none ∨ p.code = some "") :
    AuthPopup.handleMessage cfg s (.obj "auth-success" p) = s := by
  rcases h with h | h <;> simp [AuthPopup.handleMessage, h]

/-- C10.  An auth-success message whose payload lacks a truthy code never
settles the pending request on either channel: the step is the identity on
the state (dropped silently, neither resolving nor rejecting), leaving the
request pending for the other sources. -/
theorem success_without_code_never_settles (parseOk : String → Bool)
    (cfg : AuthPopup.Config) (s : AuthPopup.WaitState) (origin : String)
    (p : AuthPopup.MsgPayload) (h : p.code = none ∨ p.code = some "") :
    AuthPopup.step parseOk cfg s (.windowMessage origin (.obj "auth-success" p)) = s ∧
    AuthPopup.step parseOk cfg s (.channelMessage origin (.obj "auth-success" p)) = s := by
  refine ⟨?_, ?_⟩
  · simp only [AuthPopup.step]
    split
    · split
      · exact handleMessage_no_code cfg s p h
      · rfl
    · rfl
  · simp only [AuthPopup.step]
    split
    · exact handleMessage_no_code cfg s p h
    · rfl

/-- Witness for C10: an auth-success message with the empty code leaves a
freshly armed state untouched on both channels. -/
theorem success_without_code_never_settles_witness :
    AuthPopup.step (fun _ => true) ⟨["https://parent.example"], false⟩
        (AuthPopup.initWaitState true)
        (.windowMessage "https://parent.example"
          (.obj "auth-success" ⟨some "", none, none, none⟩)) =
      AuthPopup.initWaitState true ∧
    AuthPopup.step (fun _ => true) ⟨["https://parent.example"], false⟩
        (AuthPopup.initWaitState true)
        (.channelMessage "https://parent.example"
          (.obj "auth-success" ⟨some "", none, none, none⟩)) =
      AuthPopup.initWaitState true :=
  success_without_code_never_settles (fun _ => true)
    ⟨["https://parent.example"], false⟩ (AuthPopup.initWaitState true)
    "https://parent.example" ⟨some "", none, none, none⟩ (Or.inr rfl)
